import Mathlib

/-!
Verification of the core simulation of the `agb_pong` game (src/main.rs):
a ball and two three-segment paddles on a 240x160 screen, with integer
position/velocity integration, clamping, AABB collision and an AI paddle.

The Lean definitions below are a shallow embedding of the Rust code.
Sprite handles and display calls are external side effects outside the
simulation state and are omitted; everything else follows the source.
-/

namespace Pong

/-- Constant `agb::display::WIDTH` (GBA screen width). -/
def WIDTH : Int := 240

/-- Constant `agb::display::HEIGHT` (GBA screen height). -/
def HEIGHT : Int := 160

/-- A 2D integer vector (`Vector2D<i32>`). -/
structure Vec2 where
  x : Int
  y : Int
deriving DecidableEq, Repr

/-- A 2D unsigned vector (`Vector2D<u16>`), used for collision masks. -/
structure UVec2 where
  x : Nat
  y : Nat
deriving DecidableEq, Repr

/-- The Rust `i32::clamp(lo, hi)` (for `lo <= hi`): pull `v` into `[lo, hi]`. -/
def clampI (v lo hi : Int) : Int :=
  if v < lo then lo else if v > hi then hi else v

/-- Struct `Entity`: position, velocity and collision mask (the sprite handle is an
external display resource and carries no simulation state). -/
structure Entity where
  position : Vec2
  velocity : Vec2
  collision_mask : UVec2
deriving DecidableEq, Repr

/-- Constructor `Entity::new`: position `(0,0)`, velocity the placeholder `(12,48)`
(from `(12_u16, 48_u16).into()`), the given collision mask. -/
def Entity.new (collision_mask : UVec2) : Entity :=
  { position := ⟨0, 0⟩, velocity := ⟨12, 48⟩, collision_mask := collision_mask }

/-- Method `Entity::set_spawn`: sets the position (the sprite write is external). -/
def Entity.set_spawn (e : Entity) (spawn : Vec2) : Entity :=
  { e with position := spawn }

/-- Function `intersects(e1, e2)`: AABB overlap test between two entities, with the
`u16` mask components cast to `i32`. -/
def intersects (e1 e2 : Entity) : Bool :=
  let e1_right := e1.position.x + (e1.collision_mask.x : Int)
  let e1_bottom := e1.position.y + (e1.collision_mask.y : Int)
  let e2_right := e2.position.x + (e2.collision_mask.x : Int)
  let e2_bottom := e2.position.y + (e2.collision_mask.y : Int)
  decide (e1.position.x < e2_right) && decide (e1_right > e2.position.x) &&
    decide (e1.position.y < e2_bottom) && decide (e1_bottom > e2.position.y)

/-- Struct `Ball`: wraps one entity. -/
structure Ball where
  entity : Entity
deriving DecidableEq, Repr

/-- Constructor `Ball::new`: 16x16 mask, velocity set to `(1,1)`, spawned at `(50,50)`. -/
def Ball.new : Ball :=
  let ball := Entity.new ⟨16, 16⟩
  let ball := { ball with velocity := { ball.velocity with x := 1 } }
  let ball := { ball with velocity := { ball.velocity with y := 1 } }
  let ball := ball.set_spawn ⟨50, 50⟩
  { entity := ball }

/-- Method `Ball::checks_and_keeps_in_bounds`: integrate one step and clamp `x` into
`[0, WIDTH-16]` and `y` into `[0, HEIGHT-16]`. -/
def Ball.checks_and_keeps_in_bounds (b : Ball) : Ball :=
  let e := b.entity
  let e := { e with position := { e.position with
    x := clampI (e.position.x + e.velocity.x) 0 (WIDTH - 16) } }
  let e := { e with position := { e.position with
    y := clampI (e.position.y + e.velocity.y) 0 (HEIGHT - 16) } }
  { entity := e }

/-- Method `Ball::bounce_if_hits_screen_bounds`: negate `velocity.x` when `position.x`
is `0` or `WIDTH-16`; independently negate `velocity.y` when `position.y` is
`0` or `HEIGHT-16`. -/
def Ball.bounce_if_hits_screen_bounds (b : Ball) : Ball :=
  let e := b.entity
  let e := if e.position.x = 0 ∨ e.position.x = WIDTH - 16 then
      { e with velocity := { e.velocity with x := -e.velocity.x } }
    else e
  let e := if e.position.y = 0 ∨ e.position.y = HEIGHT - 16 then
      { e with velocity := { e.velocity with y := -e.velocity.y } }
    else e
  { entity := e }

/-- Enum `Side`: which side of the screen a paddle is on. -/
inductive Side where
  | Left
  | Right
deriving DecidableEq, Repr

/-- Struct `Paddle`: three segment entities plus a paddle-level velocity (used only
by the AI path) and the fixed side. -/
structure Paddle where
  top : Entity
  middle : Entity
  bottom : Entity
  velocity : Vec2
  which_side : Side
deriving DecidableEq, Repr

/-- Constructor `Paddle::new`: three 14x14 entities, `velocity.y` initialised to 3, spawned
at `x = 1` (Left) or `x = 224` (Right) and `y = 34 / 50 / 66`; paddle-level
velocity `(0,0)`. -/
def Paddle.new (which_side : Side) : Paddle :=
  let x_pos_of_paddle : Int := match which_side with
    | Side.Left => 1
    | Side.Right => 224
  let paddle_collision_mask : UVec2 := ⟨14, 14⟩
  let paddle_middle := Entity.new paddle_collision_mask
  let paddle_middle := { paddle_middle with
    velocity := { paddle_middle.velocity with y := 3 } }
  let paddle_middle := paddle_middle.set_spawn ⟨x_pos_of_paddle, 50⟩
  let paddle_top := Entity.new paddle_collision_mask
  let paddle_top := { paddle_top with
    velocity := { paddle_top.velocity with y := 3 } }
  let paddle_top := paddle_top.set_spawn ⟨x_pos_of_paddle, 34⟩
  let paddle_bottom := Entity.new paddle_collision_mask
  let paddle_bottom := { paddle_bottom with
    velocity := { paddle_bottom.velocity with y := 3 } }
  let paddle_bottom := paddle_bottom.set_spawn ⟨x_pos_of_paddle, 66⟩
  { top := paddle_top, middle := paddle_middle, bottom := paddle_bottom,
    which_side := which_side, velocity := ⟨0, 0⟩ }

/-- Method `Paddle::checks_and_keeps_in_bounds`: integrate each segment vertically and
clamp `top` into `[0, HEIGHT-48]`, `middle` into `[16, HEIGHT-32]`, `bottom`
into `[32, HEIGHT-16]`. -/
def Paddle.checks_and_keeps_in_bounds (p : Paddle) : Paddle :=
  let p := { p with top := { p.top with position := { p.top.position with
    y := clampI (p.top.position.y + p.top.velocity.y) 0 (HEIGHT - 48) } } }
  let p := { p with middle := { p.middle with position := { p.middle.position with
    y := clampI (p.middle.position.y + p.middle.velocity.y) 16 (HEIGHT - 32) } } }
  let p := { p with bottom := { p.bottom with position := { p.bottom.position with
    y := clampI (p.bottom.position.y + p.bottom.velocity.y) 32 (HEIGHT - 16) } } }
  p

/-- Method `Paddle::move_paddle_with_input`: set all three segments' `velocity.y` to
the input (the sprite-position pushes are external). -/
def Paddle.move_paddle_with_input (p : Paddle) (y_input : Int) : Paddle :=
  let p := { p with top := { p.top with velocity := { p.top.velocity with y := y_input } } }
  let p := { p with middle := { p.middle with velocity := { p.middle.velocity with y := y_input } } }
  let p := { p with bottom := { p.bottom with velocity := { p.bottom.velocity with y := y_input } } }
  p

/-- Method `Paddle::checks_all_collisions`: test the ball against `top`, `middle`,
`bottom` in that order; the first overlapping segment negates the ball's
`velocity.x` and the function returns. The paddle itself is not modified. -/
def Paddle.checks_all_collisions (p : Paddle) (ball : Ball) : Paddle × Ball :=
  if intersects ball.entity p.top then
    (p, { entity := { ball.entity with
      velocity := { ball.entity.velocity with x := -ball.entity.velocity.x } } })
  else if intersects ball.entity p.middle then
    (p, { entity := { ball.entity with
      velocity := { ball.entity.velocity with x := -ball.entity.velocity.x } } })
  else if intersects ball.entity p.bottom then
    (p, { entity := { ball.entity with
      velocity := { ball.entity.velocity with x := -ball.entity.velocity.x } } })
  else
    (p, ball)

/-- The list of paddle segments whose `intersects` test actually runs during
`Paddle::checks_all_collisions`, in source order: each `if` short-circuits the
later ones via `return`. `0` = top, `1` = middle, `2` = bottom. -/
def Paddle.testedSegments (p : Paddle) (ball : Ball) : List Nat :=
  if intersects ball.entity p.top then [0]
  else if intersects ball.entity p.middle then [0, 1]
  else [0, 1, 2]

/-- Method `Paddle::update_ai_paddle`: set the paddle-level `velocity.y` to `-speed`,
`speed` or `0` by comparing the ball's `y` with the middle segment's `y`, then
drive all segments with that value via `move_paddle_with_input`. -/
def Paddle.update_ai_paddle (p : Paddle) (ball : Entity) (speed : Int) : Paddle :=
  let p :=
    if ball.position.y < p.middle.position.y then
      { p with velocity := { p.velocity with y := -speed } }
    else if ball.position.y > p.middle.position.y then
      { p with velocity := { p.velocity with y := speed } }
    else
      { p with velocity := { p.velocity with y := 0 } }
  p.move_paddle_with_input p.velocity.y

/-- The operations of the frame loop that can touch the ball's state. -/
inductive BallOp where
  | clampStep
  | bounce
  | collide (p : Paddle)

/-- Apply one frame-loop ball operation. -/
def applyBallOp (b : Ball) : BallOp → Ball
  | BallOp.clampStep => b.checks_and_keeps_in_bounds
  | BallOp.bounce => b.bounce_if_hits_screen_bounds
  | BallOp.collide p => (p.checks_all_collisions b).2

/-- Run a sequence of frame-loop ball operations. -/
def runBallOps (b : Ball) (ops : List BallOp) : Ball :=
  ops.foldl applyBallOp b

/-- The operations of the frame loop that can touch a paddle's state. -/
inductive PaddleOp where
  | clampStep
  | drive (y_input : Int)
  | resolve (ball : Ball)
  | ai (ball : Entity) (speed : Int)

/-- Apply one frame-loop paddle operation. -/
def applyPaddleOp (p : Paddle) : PaddleOp → Paddle
  | PaddleOp.clampStep => p.checks_and_keeps_in_bounds
  | PaddleOp.drive y => p.move_paddle_with_input y
  | PaddleOp.resolve b => (p.checks_all_collisions b).1
  | PaddleOp.ai e s => p.update_ai_paddle e s

/-- Run a sequence of frame-loop paddle operations. -/
def runPaddleOps (p : Paddle) (ops : List PaddleOp) : Paddle :=
  ops.foldl applyPaddleOp p

/-- One frame's effect on the ball when no paddle collision occurs, in the
loop's order: `checks_and_keeps_in_bounds` then `bounce_if_hits_screen_bounds`. -/
def ballStep (b : Ball) : Ball :=
  b.checks_and_keeps_in_bounds.bounce_if_hits_screen_bounds

/-- Iterate `ballStep` `n` times. -/
def iterBall : Nat → Ball → Ball
  | 0, b => b
  | n + 1, b => iterBall n (ballStep b)

/-- The ball of the spec's collision example: position `(1,50)`, the unit
velocity `(1,1)` of a fresh ball, `16x16` mask. -/
def exampleBall : Ball :=
  { entity := { position := ⟨1, 50⟩, velocity := ⟨1, 1⟩, collision_mask := ⟨16, 16⟩ } }

/-- A ball entity at a given height, used for the AI-controller examples. -/
def aiBall (y : Int) : Entity :=
  { position := ⟨50, y⟩, velocity := ⟨1, 1⟩, collision_mask := ⟨16, 16⟩ }

/-- Both velocity components of a ball are `1` or `-1`. -/
def unitVel (b : Ball) : Prop :=
  (b.entity.velocity.x = 1 ∨ b.entity.velocity.x = -1) ∧
  (b.entity.velocity.y = 1 ∨ b.entity.velocity.y = -1)

/-- Every frame-loop ball operation preserves `unitVel`: clamping does not
touch the velocity, and bounces and paddle collisions only negate a
component. -/
theorem unitVel_applyBallOp (b : Ball) (op : BallOp) (h : unitVel b) :
    unitVel (applyBallOp b op) := by
  obtain ⟨hx, hy⟩ := h
  cases op with
  | clampStep =>
      simpa [applyBallOp, Ball.checks_and_keeps_in_bounds, unitVel] using ⟨hx, hy⟩
  | bounce =>
      simp only [applyBallOp, Ball.bounce_if_hits_screen_bounds, unitVel]
      rcases hx with hx | hx <;> rcases hy with hy | hy <;> split_ifs <;> simp_all
  | collide p =>
      simp only [applyBallOp, Paddle.checks_all_collisions, unitVel]
      rcases hx with hx | hx <;> rcases hy with hy | hy <;> split_ifs <;> simp_all

/-- Predicate `unitVel` is preserved by any sequence of frame-loop ball operations. -/
theorem unitVel_runBallOps (ops : List BallOp) (b : Ball) (h : unitVel b) :
    unitVel (runBallOps b ops) := by
  induction ops generalizing b with
  | nil => simpa [runBallOps] using h
  | cons op ops ih =>
      simpa [runBallOps, List.foldl_cons] using ih _ (unitVel_applyBallOp b op h)

/-- Method `checks_all_collisions` never modifies the paddle. -/
theorem checks_all_collisions_fst (p : Paddle) (b : Ball) :
    (p.checks_all_collisions b).1 = p := by
  simp only [Paddle.checks_all_collisions]
  split_ifs <;> rfl

/-- The three paddle segments share one vertical velocity and sit at fixed
vertical offsets of 16 pixels. -/
def paddleShapeInv (p : Paddle) : Prop :=
  p.top.velocity.y = p.middle.velocity.y ∧
  p.middle.velocity.y = p.bottom.velocity.y ∧
  p.middle.position.y = p.top.position.y + 16 ∧
  p.bottom.position.y = p.middle.position.y + 16

/-- Every frame-loop paddle operation preserves `paddleShapeInv`: clamping
moves all segments by the same delta into ranges offset by 16, driving sets
one shared velocity, and the other operations do not touch the paddle. -/
theorem paddleShapeInv_apply (p : Paddle) (op : PaddleOp) (h : paddleShapeInv p) :
    paddleShapeInv (applyPaddleOp p op) := by
  cases op with
  | clampStep =>
      simp only [paddleShapeInv, applyPaddleOp, Paddle.checks_and_keeps_in_bounds,
        clampI, HEIGHT] at h ⊢
      split_ifs <;> omega
  | drive y =>
      exact ⟨rfl, rfl, h.2.2.1, h.2.2.2⟩
  | resolve b =>
      simp only [applyPaddleOp]
      rw [checks_all_collisions_fst]
      exact h
  | ai e s =>
      simp only [applyPaddleOp, Paddle.update_ai_paddle]
      split_ifs <;> exact ⟨rfl, rfl, h.2.2.1, h.2.2.2⟩

/-- Predicate `paddleShapeInv` is preserved by any sequence of frame-loop paddle
operations. -/
theorem paddleShapeInv_run (ops : List PaddleOp) (p : Paddle) (h : paddleShapeInv p) :
    paddleShapeInv (runPaddleOps p ops) := by
  induction ops generalizing p with
  | nil => simpa [runPaddleOps] using h
  | cons op ops ih =>
      simpa [runPaddleOps, List.foldl_cons] using ih _ (paddleShapeInv_apply p op h)

/-- The horizontal spawn position of a paddle's segments. -/
def spawnX : Side → Int
  | Side.Left => 1
  | Side.Right => 224

/-- Each segment keeps its spawn `position.x` and the constructor placeholder
`velocity.x = 12`. -/
def paddleXInv (side : Side) (p : Paddle) : Prop :=
  p.top.position.x = spawnX side ∧ p.middle.position.x = spawnX side ∧
  p.bottom.position.x = spawnX side ∧
  p.top.velocity.x = 12 ∧ p.middle.velocity.x = 12 ∧ p.bottom.velocity.x = 12

/-- Every frame-loop paddle operation preserves `paddleXInv`: no operation
writes a segment's horizontal position or horizontal velocity. -/
theorem paddleXInv_apply (side : Side) (p : Paddle) (op : PaddleOp)
    (h : paddleXInv side p) : paddleXInv side (applyPaddleOp p op) := by
  cases op with
  | clampStep =>
      exact ⟨h.1, h.2.1, h.2.2.1, h.2.2.2.1, h.2.2.2.2.1, h.2.2.2.2.2⟩
  | drive y =>
      exact ⟨h.1, h.2.1, h.2.2.1, h.2.2.2.1, h.2.2.2.2.1, h.2.2.2.2.2⟩
  | resolve b =>
      simp only [applyPaddleOp]
      rw [checks_all_collisions_fst]
      exact h
  | ai e s =>
      simp only [applyPaddleOp, Paddle.update_ai_paddle]
      split_ifs <;>
        exact ⟨h.1, h.2.1, h.2.2.1, h.2.2.2.1, h.2.2.2.2.1, h.2.2.2.2.2⟩

/-- Predicate `paddleXInv` is preserved by any sequence of frame-loop paddle
operations. -/
theorem paddleXInv_run (side : Side) (ops : List PaddleOp) (p : Paddle)
    (h : paddleXInv side p) : paddleXInv side (runPaddleOps p ops) := by
  induction ops generalizing p with
  | nil => simpa [runPaddleOps] using h
  | cons op ops ih =>
      simpa [runPaddleOps, List.foldl_cons] using ih _ (paddleXInv_apply side p op h)

/-- C1: after `checks_and_keeps_in_bounds` the ball's position lies in
`[0, WIDTH-16] x [0, HEIGHT-16]` — proved for every ball state, hence in
particular for every reachable one. -/
theorem ball_clamp_in_bounds (b : Ball) :
    0 ≤ b.checks_and_keeps_in_bounds.entity.position.x ∧
    b.checks_and_keeps_in_bounds.entity.position.x ≤ WIDTH - 16 ∧
    0 ≤ b.checks_and_keeps_in_bounds.entity.position.y ∧
    b.checks_and_keeps_in_bounds.entity.position.y ≤ HEIGHT - 16 := by
  simp only [Ball.checks_and_keeps_in_bounds, clampI, WIDTH, HEIGHT]
  split_ifs <;> omega

/-- C2: method `bounce_if_hits_screen_bounds` leaves the position unchanged, negates
`velocity.x` exactly when `position.x` is `0` or `WIDTH-16`, and independently
negates `velocity.y` exactly when `position.y` is `0` or `HEIGHT-16`. -/
theorem bounce_characterization (b : Ball) :
    b.bounce_if_hits_screen_bounds.entity.position = b.entity.position ∧
    b.bounce_if_hits_screen_bounds.entity.velocity.x =
      (if b.entity.position.x = 0 ∨ b.entity.position.x = WIDTH - 16 then
        -b.entity.velocity.x else b.entity.velocity.x) ∧
    b.bounce_if_hits_screen_bounds.entity.velocity.y =
      (if b.entity.position.y = 0 ∨ b.entity.position.y = HEIGHT - 16 then
        -b.entity.velocity.y else b.entity.velocity.y) := by
  simp only [Ball.bounce_if_hits_screen_bounds]
  split_ifs <;> simp_all

/-- C5: predicate `intersects a b` holds exactly when the two half-open AABB rectangles
`[position, position + collision_mask)` overlap, i.e. the four strict
inequalities of the claim all hold. -/
theorem intersects_iff (a b : Entity) :
    intersects a b = true ↔
      (a.position.x < b.position.x + (b.collision_mask.x : Int) ∧
       a.position.x + (a.collision_mask.x : Int) > b.position.x ∧
       a.position.y < b.position.y + (b.collision_mask.y : Int) ∧
       a.position.y + (a.collision_mask.y : Int) > b.position.y) := by
  simp [intersects, and_assoc]

/-- C3: method `checks_all_collisions` leaves the paddle and the ball's position and
vertical velocity unchanged; it negates the ball's horizontal velocity exactly
once when some segment overlaps and leaves it unchanged otherwise; the
segments actually tested follow the fixed top → middle → bottom short-circuit
order. In particular, for the spec's example ball at `(1,50)` against a fresh
left paddle, the horizontal velocity flips from `1` to `-1` and the bottom
segment is never tested. -/
theorem collisions_first_match (p : Paddle) (b : Ball) :
    ((p.checks_all_collisions b).1 = p ∧
     (p.checks_all_collisions b).2.entity.position = b.entity.position ∧
     (p.checks_all_collisions b).2.entity.velocity.y = b.entity.velocity.y ∧
     (p.checks_all_collisions b).2.entity.velocity.x =
       (if intersects b.entity p.top ∨ intersects b.entity p.middle ∨
           intersects b.entity p.bottom
        then -b.entity.velocity.x else b.entity.velocity.x) ∧
     p.testedSegments b =
       (if intersects b.entity p.top then [0]
        else if intersects b.entity p.middle then [0, 1]
        else [0, 1, 2])) ∧
    ((Paddle.new Side.Left).checks_all_collisions exampleBall).2.entity.velocity.x
      = -1 ∧
    (Paddle.new Side.Left).testedSegments exampleBall = [0, 1] := by
  refine ⟨⟨?_, ?_, ?_, ?_, ?_⟩, by decide, by decide⟩
  · simp only [Paddle.checks_all_collisions]
    split_ifs <;> rfl
  · simp only [Paddle.checks_all_collisions]
    split_ifs <;> rfl
  · simp only [Paddle.checks_all_collisions]
    split_ifs <;> rfl
  · simp only [Paddle.checks_all_collisions]
    split_ifs <;> simp_all
  · rfl

/-- C4: for every ball state reachable from `Ball::new` (velocity `(1,1)`) by
any sequence of the frame-loop operations, both velocity components stay in
`{-1, +1}`. -/
theorem ball_velocity_unit_invariant (ops : List BallOp) :
    ((runBallOps Ball.new ops).entity.velocity.x = 1 ∨
     (runBallOps Ball.new ops).entity.velocity.x = -1) ∧
    ((runBallOps Ball.new ops).entity.velocity.y = 1 ∨
     (runBallOps Ball.new ops).entity.velocity.y = -1) :=
  unitVel_runBallOps ops Ball.new (by constructor <;> simp [Ball.new, Entity.new, Entity.set_spawn])

/-- C6: method `update_ai_paddle` sets the paddle's `velocity.y` to `-speed`, `speed`
or `0` according to whether the ball is above, below or level with the middle
segment, and drives all three segments with that same value; the spec's three
concrete examples with `speed = 1` and `middle.y = 50` behave as stated. -/
theorem update_ai_characterization (p : Paddle) (ball : Entity) (speed : Int) :
    (let v : Int :=
       if ball.position.y < p.middle.position.y then -speed
       else if ball.position.y > p.middle.position.y then speed
       else 0
     (p.update_ai_paddle ball speed).velocity.y = v ∧
     (p.update_ai_paddle ball speed).top.velocity.y = v ∧
     (p.update_ai_paddle ball speed).middle.velocity.y = v ∧
     (p.update_ai_paddle ball speed).bottom.velocity.y = v) ∧
    ((Paddle.new Side.Right).update_ai_paddle (aiBall 40) 1).velocity.y = -1 ∧
    ((Paddle.new Side.Right).update_ai_paddle (aiBall 60) 1).velocity.y = 1 ∧
    ((Paddle.new Side.Right).update_ai_paddle (aiBall 50) 1).velocity.y = 0 := by
  refine ⟨?_, by decide, by decide, by decide⟩
  simp only [Paddle.update_ai_paddle, Paddle.move_paddle_with_input]
  split_ifs <;> simp_all

/-- Function `iterBall` applies the last step on the outside. -/
theorem iterBall_succ (n : Nat) (b : Ball) :
    iterBall (n + 1) b = ballStep (iterBall n b) := by
  induction n generalizing b with
  | zero => rfl
  | succ n ih =>
      show iterBall (n + 1) (ballStep b) = ballStep (iterBall (n + 1) b)
      rw [ih (ballStep b)]
      rfl

/-- The x-component of one collision-free frame: the position is integrated
and clamped, and the horizontal velocity is negated exactly when the clamped
position sits on a vertical screen edge. -/
theorem ballStep_x (b : Ball) :
    (ballStep b).entity.position.x =
      clampI (b.entity.position.x + b.entity.velocity.x) 0 (WIDTH - 16) ∧
    (ballStep b).entity.velocity.x =
      (if clampI (b.entity.position.x + b.entity.velocity.x) 0 (WIDTH - 16) = 0 ∨
          clampI (b.entity.position.x + b.entity.velocity.x) 0 (WIDTH - 16) = WIDTH - 16
       then -b.entity.velocity.x else b.entity.velocity.x) := by
  simp only [ballStep, Ball.checks_and_keeps_in_bounds, Ball.bounce_if_hits_screen_bounds]
  split_ifs <;> simp_all

/-- Closed form for the collision-free trajectory from `Ball::new` up to the
first contact with the right edge: `position.x = 50 + n`, and `velocity.x`
stays `1` until it flips to `-1` on frame 174, where `x` first reaches
`WIDTH-16 = 224`. -/
theorem ball_x_formula (n : Nat) (hn : n ≤ 174) :
    (iterBall n Ball.new).entity.position.x = 50 + (n : Int) ∧
    (iterBall n Ball.new).entity.velocity.x = (if n = 174 then -1 else 1) := by
  induction n with
  | zero => exact ⟨by decide, by decide⟩
  | succ n ih =>
      obtain ⟨hx, hv⟩ := ih (by omega)
      rw [if_neg (by omega)] at hv
      rw [iterBall_succ]
      obtain ⟨hsx, hsv⟩ := ballStep_x (iterBall n Ball.new)
      rw [hx, hv] at hsx hsv
      have hc : clampI (50 + (n : Int) + 1) 0 (WIDTH - 16) = 50 + ((n + 1 : Nat) : Int) := by
        simp only [clampI, WIDTH]
        split_ifs <;> push_cast <;> omega
      constructor
      · rw [hsx, hc]
      · rw [hsv, hc]
        by_cases h174 : n + 1 = 174
        · rw [if_pos (by simp only [WIDTH]; omega), if_pos h174]
        · rw [if_neg (by simp only [WIDTH]; omega), if_neg h174]

/-- C7: for every paddle reachable from construction by any sequence of
frame-loop paddle operations (in particular any interleaving of drives and
clamps), after an `checks_and_keeps_in_bounds` call the top segment's `y` is
in `[0, HEIGHT-48]`, the middle's in `[16, HEIGHT-32]` and the bottom's in
`[32, HEIGHT-16]`. -/
theorem paddle_clamp_bounds (side : Side) (ops : List PaddleOp) :
    0 ≤ ((runPaddleOps (Paddle.new side) ops).checks_and_keeps_in_bounds).top.position.y ∧
    ((runPaddleOps (Paddle.new side) ops).checks_and_keeps_in_bounds).top.position.y ≤ HEIGHT - 48 ∧
    16 ≤ ((runPaddleOps (Paddle.new side) ops).checks_and_keeps_in_bounds).middle.position.y ∧
    ((runPaddleOps (Paddle.new side) ops).checks_and_keeps_in_bounds).middle.position.y ≤ HEIGHT - 32 ∧
    32 ≤ ((runPaddleOps (Paddle.new side) ops).checks_and_keeps_in_bounds).bottom.position.y ∧
    ((runPaddleOps (Paddle.new side) ops).checks_and_keeps_in_bounds).bottom.position.y ≤ HEIGHT - 16 := by
  simp only [Paddle.checks_and_keeps_in_bounds, clampI, HEIGHT]
  split_ifs <;> omega

/-- C8: every paddle state reachable from construction (segments at
`y = 34 / 50 / 66`, one shared vertical velocity) keeps the fixed shape
`middle.y = top.y + 16` and `bottom.y = middle.y + 16`, in particular after
every `checks_and_keeps_in_bounds`, including when clamping engages at the
screen edges. -/
theorem paddle_shape_invariant (side : Side) (ops : List PaddleOp) :
    (runPaddleOps (Paddle.new side) ops).middle.position.y =
      (runPaddleOps (Paddle.new side) ops).top.position.y + 16 ∧
    (runPaddleOps (Paddle.new side) ops).bottom.position.y =
      (runPaddleOps (Paddle.new side) ops).middle.position.y + 16 := by
  have h := paddleShapeInv_run ops (Paddle.new side)
    (by cases side <;> exact ⟨rfl, rfl, by decide, by decide⟩)
  exact ⟨h.2.2.1, h.2.2.2⟩

/-- C10: for every paddle state reachable from construction by any sequence of
frame-loop paddle operations, each segment's `position.x` stays at its spawn
value (`1` for Left, `224` for Right) while each segment's `velocity.x` stays
at the nonzero constructor placeholder `12`. -/
theorem paddle_x_frozen (side : Side) (ops : List PaddleOp) :
    (runPaddleOps (Paddle.new side) ops).top.position.x = spawnX side ∧
    (runPaddleOps (Paddle.new side) ops).middle.position.x = spawnX side ∧
    (runPaddleOps (Paddle.new side) ops).bottom.position.x = spawnX side ∧
    (runPaddleOps (Paddle.new side) ops).top.velocity.x = 12 ∧
    (runPaddleOps (Paddle.new side) ops).middle.velocity.x = 12 ∧
    (runPaddleOps (Paddle.new side) ops).bottom.velocity.x = 12 :=
  paddleXInv_run side ops (Paddle.new side)
    (by cases side <;>
      exact ⟨by decide, by decide, by decide, by decide, by decide, by decide⟩)

/-- C9: from the ball's spawn `(50,50)` with velocity `(1,1)`, one
collision-free frame (clamp then bounce) leaves it at `(51,51)`; over repeated
frames `velocity.x` becomes `-1` exactly on frame 174, where `position.x`
first equals `WIDTH-16`, and on no earlier frame. -/
theorem ball_trajectory :
    (ballStep Ball.new).entity.position.x = 51 ∧
    (ballStep Ball.new).entity.position.y = 51 ∧
    (iterBall 174 Ball.new).entity.position.x = WIDTH - 16 ∧
    (iterBall 174 Ball.new).entity.velocity.x = -1 ∧
    ∀ n, n < 174 →
      (iterBall n Ball.new).entity.position.x ≠ WIDTH - 16 ∧
      (iterBall n Ball.new).entity.velocity.x = 1 := by
  refine ⟨by decide, by decide, ?_, ?_, ?_⟩
  · rw [(ball_x_formula 174 (le_refl _)).1]
    simp only [WIDTH]
    omega
  · rw [(ball_x_formula 174 (le_refl _)).2, if_pos rfl]
  · intro n hn
    constructor
    · rw [(ball_x_formula n (by omega)).1]
      simp only [WIDTH]
      omega
    · rw [(ball_x_formula n (by omega)).2, if_neg (by omega)]

/-- Witness for C9: at the concrete frame 0 (which satisfies `0 < 174`), the
ball is away from the right edge and `velocity.x` is still `1`. -/
theorem ball_trajectory_witness :
    (iterBall 0 Ball.new).entity.position.x ≠ WIDTH - 16 ∧
    (iterBall 0 Ball.new).entity.velocity.x = 1 :=
  ball_trajectory.2.2.2.2 0 (by decide)

end Pong
